import Mathlib

/-!
Verification of `jps-python/python-for-devops`.

Two scripts carry the behaviour under specification:

* `src/Day-01/devops-task/Server_Health_Check.py` — `check_server(host)`
  runs `os.system(f"ping -c 1 {host} > /dev/null 2>&1")` and prints
  `"{host} is UP"` when the returned status is `0`, else `"{host} is DOWN"`.

* `src/Day-03-02-01-Task/task/Extracting_IP_Addresses_from_Logs.py` —
  `re.findall(r"(\d{1,3}\.){3}\d{1,3}", log_data)` over a fixed log string.

The embedding models `os.system` as an oracle `String → Nat` (the exit
status the OS returns for a shell command) and records the effect trace
(commands issued, lines printed).  The regular expression is embedded as a
direct matcher for this one pattern: each repetition of `(\d{1,3}\.)` has a
unique parse (the digits consumed must be the entire digit run preceding
the dot, and that run must have length 1–3), so the greedy backtracking
search of Python's `re` degenerates to a deterministic scan.
-/

namespace ServerHealthCheck

/-- Outcome classes of the spec's data model (`ProbeResult`). -/
inductive ProbeResult where
  | Reachable : ProbeResult
  | Unreachable : ProbeResult
  | Error : String → ProbeResult
deriving DecidableEq, Repr

/-- The shell command built on line 4 of `Server_Health_Check.py`:
`f"ping -c 1 {host} > /dev/null 2>&1"`, with `host` interpolated verbatim. -/
def pingCommand (host : String) : String :=
  "ping -c 1 " ++ host ++ " > /dev/null 2>&1"

/-- Effect trace of one `check_server` call: the shell commands issued via
`os.system` and the lines printed, in order. -/
structure Effects where
  commands : List String
  printed : List String
deriving DecidableEq, Repr

/-- The function `check_server(host)` from `Server_Health_Check.py`, with the operating
system shallowly embedded as the oracle `os : String → Nat` giving the exit
status of a shell command.  The body issues the single ping command, binds
`response` to its status, and prints one line depending on `response == 0`. -/
def check_server (host : String) (os : String → Nat) : Effects :=
  let cmd := pingCommand host
  let response := os cmd
  { commands := [cmd]
  , printed :=
      if response = 0 then [host ++ " is UP"] else [host ++ " is DOWN"] }

/-- The outcome classification performed by `check_server`'s branch, in the
spec's `ProbeResult` vocabulary: exit status `0` (the `"is UP"` line) is
`Reachable`, any nonzero status (the `"is DOWN"` line) is `Unreachable`.
No branch of the code produces an `Error` outcome. -/
def classify (response : Nat) : ProbeResult :=
  if response = 0 then ProbeResult.Reachable else ProbeResult.Unreachable

end ServerHealthCheck

namespace IPExtract

/-- Length of the leading run of decimal digits (`\d*` viewed greedily).
`Char.isDigit` embeds `\d` for the ASCII inputs at hand. -/
def digitRun : List Char → Nat
  | [] => 0
  | c :: cs => if c.isDigit then digitRun cs + 1 else 0

/-- One repetition of the group `(\d{1,3}\.)` at the head of `cs`:
greedy `\d{1,3}` followed by a literal dot.  The digits consumed must be
the entire leading digit run (any shorter choice is followed by a digit,
not a dot), so the parse is unique: it succeeds exactly when the leading
digit run has length 1–3 and is immediately followed by `'.'`, consuming
run-plus-dot.  Returns (captured characters, remaining characters). -/
def matchGroup (cs : List Char) : Option (List Char × List Char) :=
  let r := digitRun cs
  if 1 ≤ r ∧ r ≤ 3 ∧ (cs.drop r).head? = some '.' then
    some (cs.take (r + 1), cs.drop (r + 1))
  else none

/-- The whole pattern `(\d{1,3}\.){3}\d{1,3}` at the head of `cs`:
three repetitions of the group, then a final greedy `\d{1,3}`.
Returns (full matched characters, capture of the group's last repetition,
remaining characters) — Python's `re` records the last iteration of a
repeated group as that group's capture. -/
def matchIPAt (cs : List Char) : Option (List Char × List Char × List Char) :=
  match matchGroup cs with
  | none => none
  | some (g1, r1) =>
    match matchGroup r1 with
    | none => none
    | some (g2, r2) =>
      match matchGroup r2 with
      | none => none
      | some (g3, r3) =>
        let d := digitRun r3
        if d = 0 then none
        else
          let t := min d 3
          some (g1 ++ g2 ++ g3 ++ r3.take t, g3, r3.drop t)

/-- The scan of `re.findall`: leftmost matches, non-overlapping, in order
of appearance; on a match the scan resumes after it, otherwise it advances
one character.  Returns (group captures, full matched substrings); with
exactly one group in the pattern, Python's `findall` returns the first
component, while the full matches are the second.  `fuel` bounds the
recursion and any `fuel ≥ length` is enough. -/
def scanAux : Nat → List Char → List (List Char) × List (List Char)
  | 0, _ => ([], [])
  | _, [] => ([], [])
  | fuel + 1, c :: cs =>
    match matchIPAt (c :: cs) with
    | some (full, grp, rest) =>
      let p := scanAux fuel rest
      (grp :: p.1, full :: p.2)
    | none => scanAux fuel cs

/-- What `re.findall(ip_pattern, s)` computes: the pattern has exactly one
group, so the result is the list of (last-repetition) group captures. -/
def re_findall (s : String) : List String :=
  (scanAux s.toList.length s.toList).1.map List.asString

/-- The list of full matched substrings of the pattern in `s`, in order of
appearance, non-overlapping (what `findall` would return had the pattern
no capturing group). -/
def fullMatchList (s : String) : List String :=
  (scanAux s.toList.length s.toList).2.map List.asString

/-- The string `log_data` from `Extracting_IP_Addresses_from_Logs.py`. -/
def log_data : String :=
  "\nUser logged in from 192.168.1.10\nFailed login attempt from 203.0.113.5\n"

/-- The value `ip_addresses = re.findall(ip_pattern, log_data)` from the script. -/
def ip_addresses : List String := re_findall log_data

/-- On a list of digits followed by anything that is not a digit, `digitRun`
counts exactly the digits. -/
lemma digitRun_append (d r : List Char) (hd : ∀ c ∈ d, c.isDigit) :
    digitRun (d ++ r) = d.length + digitRun r := by
  induction d with
  | nil => simp [digitRun]
  | cons c cs ih =>
    have hc : c.isDigit := hd c (List.mem_cons_self c cs)
    have hcs : ∀ x ∈ cs, x.isDigit := fun x hx => hd x (List.mem_cons_of_mem c hx)
    have hstep : digitRun (c :: cs ++ r) = digitRun (cs ++ r) + 1 := by
      simp [digitRun, hc]
    rw [hstep, ih hcs, List.length_cons]
    omega

/-- A dot stops the digit run. -/
lemma digitRun_dot (r : List Char) : digitRun ('.' :: r) = 0 := by
  simp [digitRun]

/-- Dropping the length of a left factor of an append yields the right factor. -/
lemma drop_len_append (d r : List Char) : (d ++ r).drop d.length = r := by
  induction d with
  | nil => rfl
  | cons c cs ih => simp [ih]

/-- Dropping one past the left factor of `d ++ c :: r` yields `r`. -/
lemma drop_len_succ_append (d : List Char) (c : Char) (r : List Char) :
    (d ++ c :: r).drop (d.length + 1) = r := by
  induction d with
  | nil => rfl
  | cons x xs ih => simp [ih]

/-- Taking one past the left factor of `d ++ c :: r` yields `d ++ [c]`. -/
lemma take_len_succ_append (d : List Char) (c : Char) (r : List Char) :
    (d ++ c :: r).take (d.length + 1) = d ++ [c] := by
  induction d with
  | nil => rfl
  | cons x xs ih => simp [ih]

/-- The group `(\d{1,3}\.)` matched against a run of one to three digits
followed by a dot consumes exactly that run and the dot. -/
lemma matchGroup_eq (d r : List Char) (hd : ∀ c ∈ d, c.isDigit)
    (hlo : 1 ≤ d.length) (hhi : d.length ≤ 3) :
    matchGroup (d ++ '.' :: r) = some (d ++ ['.'], r) := by
  have hrun : digitRun (d ++ '.' :: r) = d.length := by
    rw [digitRun_append d _ hd, digitRun_dot]
    exact Nat.add_zero _
  have hdrop : (d ++ '.' :: r).drop d.length = '.' :: r := drop_len_append d _
  unfold matchGroup
  rw [hrun, if_pos ⟨hlo, hhi, by rw [hdrop]; rfl⟩,
    take_len_succ_append, drop_len_succ_append]

end IPExtract


open ServerHealthCheck IPExtract

/-- C1: for every host string, a single call to `check_server` prints
exactly one line — `"<host> is UP"` when the ping probe's exit status is
`0`, and `"<host> is DOWN"` otherwise. -/
theorem C1_check_server_prints_one_line (host : String) (os : String → Nat) :
    (check_server host os).printed =
      [if os (pingCommand host) = 0
        then host ++ " is UP" else host ++ " is DOWN"] := by
  unfold check_server
  by_cases h : os (pingCommand host) = 0 <;> simp [h]

/-- C2 counterexample: the claim asserts `check("", 1s)` yields
`Error("invalid host")`.  On the code, an empty host makes the shell run
`ping -c 1  > /dev/null 2>&1`, which fails (here with `os.system` status
`512`, ping's usage-error exit code `2`); `check_server` then prints
`" is DOWN"`, the `Unreachable` class, and no branch of the code produces
an `Error` outcome. -/
theorem C2_counterexample :
    check_server "" (fun _ => 512) =
      { commands := ["ping -c 1  > /dev/null 2>&1"], printed := [" is DOWN"] } ∧
    classify ((fun _ : String => 512) (pingCommand "")) ≠
      ProbeResult.Error "invalid host" := by
  exact ⟨rfl, by decide⟩

/-- C2 amended: for an empty (or any malformed) host string whose probe
exits nonzero, `check_server` does not crash; it prints the `" is DOWN"`
line, classifying the outcome as `Unreachable` rather than as an `Error`
value — the code has no `Error` outcome at all. -/
theorem C2_amended_empty_host_is_down (os : String → Nat)
    (h : os (pingCommand "") ≠ 0) :
    (check_server "" os).printed = [" is DOWN"] ∧
    classify (os (pingCommand "")) = ProbeResult.Unreachable := by
  unfold check_server classify
  simp [h]

/-- C2 amended, witness: the empty-host call with `os.system` status `512`. -/
theorem C2_amended_witness :
    (fun _ : String => 512) (pingCommand "") ≠ 0 ∧
    ((check_server "" (fun _ => 512)).printed = [" is DOWN"] ∧
      classify ((fun _ : String => 512) (pingCommand "")) =
        ProbeResult.Unreachable) :=
  ⟨by decide, C2_amended_empty_host_is_down (fun _ => 512) (by decide)⟩

/-- C3: the claim asserts the `re.findall` call returns the full matching
substrings — for the script's log, `"192.168.1.10"` and `"203.0.113.5"`.
It does not: the pattern `(\d{1,3}\.){3}\d{1,3}` contains a capturing
group, so `findall` returns the last repetition of that group per match,
`["1.", "113."]`, while the full matched substrings are the dotted quads.
The script's own name and its `"Extracted IPs:"` print show the full
matches were the intent: the code is missing a non-capturing group. -/
theorem C3_findall_returns_group_captures :
    ip_addresses = ["1.", "113."] ∧
    fullMatchList log_data = ["192.168.1.10", "203.0.113.5"] ∧
    ip_addresses ≠ fullMatchList log_data := by
  refine ⟨by decide, by decide, by decide⟩

/-- C4: whenever the probe's exit status is nonzero (timeout, rejection,
name-resolution failure alike), `check_server` reports the
`"<host> is DOWN"` outcome, i.e. `Unreachable`. -/
theorem C4_nonzero_status_reports_down (host : String) (os : String → Nat)
    (h : os (pingCommand host) ≠ 0) :
    (check_server host os).printed = [host ++ " is DOWN"] ∧
    classify (os (pingCommand host)) = ProbeResult.Unreachable := by
  unfold check_server classify
  simp [h]

/-- C4 witness: an unreachable host with `os.system` status `256`
(ping exit code `1`, no reply). -/
theorem C4_witness :
    (fun _ : String => 256) (pingCommand "example.com") ≠ 0 ∧
    ((check_server "example.com" (fun _ => 256)).printed =
        ["example.com is DOWN"] ∧
      classify ((fun _ : String => 256) (pingCommand "example.com")) =
        ProbeResult.Unreachable) :=
  ⟨by decide, C4_nonzero_status_reports_down "example.com" (fun _ => 256)
    (by decide)⟩

/-- C5: for every host and every exit status the OS may return, the call
produces a defined outcome — exactly one printed line, and a
classification that is one of the enumerated `ProbeResult` classes
(`Reachable` or `Unreachable`); no partial or undefined state. -/
theorem C5_always_defined_result (host : String) (os : String → Nat) :
    (check_server host os).printed.length = 1 ∧
    (classify (os (pingCommand host)) = ProbeResult.Reachable ∨
      classify (os (pingCommand host)) = ProbeResult.Unreachable) := by
  unfold check_server classify
  by_cases h : os (pingCommand host) = 0 <;> simp [h]

/-- C6: every call to `check_server` issues exactly one shell command, and
that command is a single ping probe with echo-request count `1`
(`ping -c 1 …`); no retry happens within the call. -/
theorem C6_exactly_one_probe (host : String) (os : String → Nat) :
    (check_server host os).commands.length = 1 ∧
    ∃ rest : String, (check_server host os).commands = ["ping -c 1 " ++ rest] := by
  refine ⟨rfl, host ++ " > /dev/null 2>&1", ?_⟩
  unfold check_server pingCommand
  simp [String.append_assoc]

/-- C8: two calls with the same host and the same probe outcome (the same
success/failure of the ping, even if the raw status codes differ) produce
identical effects and the same outcome class — classification is
idempotent and depends only on whether the probe succeeded. -/
theorem C8_idempotent_classification (host : String) (os₁ os₂ : String → Nat)
    (h : os₁ (pingCommand host) = 0 ↔ os₂ (pingCommand host) = 0) :
    check_server host os₁ = check_server host os₂ ∧
    classify (os₁ (pingCommand host)) = classify (os₂ (pingCommand host)) := by
  unfold check_server classify
  by_cases h₁ : os₁ (pingCommand host) = 0
  · simp [h₁, h.mp h₁]
  · have h₂ : ¬ os₂ (pingCommand host) = 0 := fun hz => h₁ (h.mpr hz)
    simp [h₁, h₂]

/-- C8 witness: two probes of the same host failing with different raw
statuses (`256` and `512`) give identical effects and the same class. -/
theorem C8_witness :
    ((fun _ : String => 256) (pingCommand "a") = 0 ↔
      (fun _ : String => 512) (pingCommand "a") = 0) ∧
    (check_server "a" (fun _ => 256) = check_server "a" (fun _ => 512) ∧
      classify ((fun _ : String => 256) (pingCommand "a")) =
        classify ((fun _ : String => 512) (pingCommand "a"))) :=
  ⟨by decide, C8_idempotent_classification "a" (fun _ => 256) (fun _ => 512)
    (by decide)⟩

/-- C9: the pattern `(\d{1,3}\.){3}\d{1,3}` matches any four dot-separated
runs of one to three digits — no constraint ties a run's numeric value to
the IPv4 octet bound `255`, so e.g. `"999.999.999.999"` matches in full
and an extracted match need not be a valid IPv4 address. -/
theorem C9_pattern_matches_any_digit_quad (d₁ d₂ d₃ d₄ : List Char)
    (hd₁ : ∀ c ∈ d₁, c.isDigit) (h₁l : 1 ≤ d₁.length) (h₁h : d₁.length ≤ 3)
    (hd₂ : ∀ c ∈ d₂, c.isDigit) (h₂l : 1 ≤ d₂.length) (h₂h : d₂.length ≤ 3)
    (hd₃ : ∀ c ∈ d₃, c.isDigit) (h₃l : 1 ≤ d₃.length) (h₃h : d₃.length ≤ 3)
    (hd₄ : ∀ c ∈ d₄, c.isDigit) (h₄l : 1 ≤ d₄.length) (h₄h : d₄.length ≤ 3) :
    matchIPAt (d₁ ++ '.' :: (d₂ ++ '.' :: (d₃ ++ '.' :: d₄))) =
      some (d₁ ++ '.' :: (d₂ ++ '.' :: (d₃ ++ '.' :: d₄)), d₃ ++ ['.'], []) := by
  have hrun₄ : digitRun d₄ = d₄.length := by
    have := digitRun_append d₄ [] hd₄
    simpa [digitRun] using this
  have hne : ¬ d₄.length = 0 := by omega
  have hmin : min d₄.length 3 = d₄.length := Nat.min_eq_left h₄h
  simp only [matchIPAt,
    matchGroup_eq d₁ (d₂ ++ '.' :: (d₃ ++ '.' :: d₄)) hd₁ h₁l h₁h,
    matchGroup_eq d₂ (d₃ ++ '.' :: d₄) hd₂ h₂l h₂h,
    matchGroup_eq d₃ d₄ hd₃ h₃l h₃h]
  simp [hrun₄, hne, hmin, List.append_assoc]

/-- C9 witness: every run is `"999"`, so the full string
`"999.999.999.999"` matches even though `999 > 255`. -/
theorem C9_witness :
    matchIPAt (['9', '9', '9'] ++ '.' :: (['9', '9', '9'] ++ '.' ::
        (['9', '9', '9'] ++ '.' :: ['9', '9', '9']))) =
      some (['9', '9', '9'] ++ '.' :: (['9', '9', '9'] ++ '.' ::
          (['9', '9', '9'] ++ '.' :: ['9', '9', '9'])),
        ['9', '9', '9'] ++ ['.'], []) :=
  C9_pattern_matches_any_digit_quad
    ['9', '9', '9'] ['9', '9', '9'] ['9', '9', '9'] ['9', '9', '9']
    (by decide) (by decide) (by decide) (by decide) (by decide) (by decide)
    (by decide) (by decide) (by decide) (by decide) (by decide) (by decide)

/-- C10: `check_server` hands the shell exactly the command
`"ping -c 1 " ++ host ++ " > /dev/null 2>&1"`, the host interpolated
verbatim with no validation, quoting or escaping. -/
theorem C10_shell_command_verbatim (host : String) (os : String → Nat) :
    (check_server host os).commands =
      ["ping -c 1 " ++ host ++ " > /dev/null 2>&1"] := rfl
